import Mathlib

/-!
Shallow embedding of the PDF cover-page composition engine of the
PdfTemplateEditor repository (src/server/routes.ts, src/server/storage.ts,
src/shared/schema.ts).

The drawn content of a page is modelled as the ordered list of drawing
operations (rectangles and text) that the code issues through pdf-lib's
drawRectangle / drawText.  Coordinates, sizes and colour components are
rationals; pdf-lib colour components live in [0,1].  Pages copied from the
original document are opaque values of a type parameter.
-/

namespace PdfTemplateEditor

/-- Colour with components in [0,1], as produced by pdf-lib's rgb(r, g, b). -/
structure Color where
  r : ℚ
  g : ℚ
  b : ℚ
deriving DecidableEq, Repr

/-- Embedding of pdf-lib rgb(r, g, b). -/
def rgb (r g b : ℚ) : Color := ⟨r, g, b⟩

/-- The two standard fonts the code ever embeds
(src/server/routes.ts lines 1098-1114). -/
inductive StandardFont where
  | Helvetica
  | TimesRoman
deriving DecidableEq, Repr

/-- Embedding of the fontFamily switch in generateModifiedPdf
(src/server/routes.ts lines 1098-1114, identical in
generateCustomizedCoverPreview lines 1000-1016): Roboto, Open Sans,
Montserrat and Raleway all embed Helvetica, Playfair Display embeds
TimesRoman, and the default branch embeds Helvetica.  A JS switch on a
string is a sequential strict-equality test, modelled as an ite chain. -/
def resolveFont (fontFamily : String) : StandardFont :=
  if fontFamily = "Roboto" ∨ fontFamily = "Open Sans" then .Helvetica
  else if fontFamily = "Montserrat" then .Helvetica
  else if fontFamily = "Playfair Display" then .TimesRoman
  else if fontFamily = "Raleway" then .Helvetica
  else .Helvetica

/-- True exactly on the characters accepted by the character class
[a-f\d] with the i flag of the regex in hexToRgb
(src/server/routes.ts line 1190). -/
def isHexChar (c : Char) : Bool :=
  c.isDigit || decide (Char.ofNat 97 ≤ c ∧ c ≤ Char.ofNat 102) ||
    decide (Char.ofNat 65 ≤ c ∧ c ≤ Char.ofNat 70)

/-- Numeric value of one hex digit, as parseInt(-, 16) assigns it. -/
def hexCharVal (c : Char) : ℕ :=
  if c.isDigit then c.toNat - 48
  else if Char.ofNat 97 ≤ c ∧ c ≤ Char.ofNat 102 then c.toNat - 97 + 10
  else if Char.ofNat 65 ≤ c ∧ c ≤ Char.ofNat 70 then c.toNat - 65 + 10
  else 0

/-- Value of a two-hex-digit group under parseInt(-, 16). -/
def hexPairVal (c1 c2 : Char) : ℕ := 16 * hexCharVal c1 + hexCharVal c2

/-- Characters examined by the regex body after the optional leading hash
sign (the regex is anchored, so the hash may only be the first char). -/
def stripHash (hex : String) : List Char :=
  match hex.toList with
  | c :: rest => if c = Char.ofNat 35 then rest else hex.toList
  | [] => []

/-- Whether the input matches the hexToRgb regex (src/server/routes.ts
line 1190): after the optional leading hash sign, exactly six
case-insensitive hex digits. -/
def hexMatches (hex : String) : Bool :=
  match stripHash hex with
  | [c1, c2, c3, c4, c5, c6] =>
      isHexChar c1 && isHexChar c2 && isHexChar c3 &&
      isHexChar c4 && isHexChar c5 && isHexChar c6
  | _ => false

/-- Embedding of hexToRgb (src/server/routes.ts lines 1189-1198): match the
input against the anchored regex with an optional leading hash sign followed
by three two-hex-digit groups (case-insensitive); on a match divide each
group value by 255, otherwise return black (0,0,0). -/
def hexToRgb (hex : String) : Color :=
  match stripHash hex with
  | [c1, c2, c3, c4, c5, c6] =>
      if (isHexChar c1 && isHexChar c2 && isHexChar c3 &&
          isHexChar c4 && isHexChar c5 && isHexChar c6) then
        ⟨(hexPairVal c1 c2 : ℚ) / 255,
         (hexPairVal c3 c4 : ℚ) / 255,
         (hexPairVal c5 c6 : ℚ) / 255⟩
      else ⟨0, 0, 0⟩
  | _ => ⟨0, 0, 0⟩

/-- Embedding of getTitleSize (src/server/routes.ts lines 1201-1214). -/
def getTitleSize (titleSize : String) : ℚ :=
  if titleSize = "Small" then 24
  else if titleSize = "Medium" then 32
  else if titleSize = "Large" then 40
  else if titleSize = "Extra Large" then 48
  else 32

/-- Embedding of getTitleX (src/server/routes.ts lines 1217-1227). -/
def getTitleX (alignment : String) (width : ℚ) : ℚ :=
  if alignment = "left" then 50
  else if alignment = "right" then width - 50
  else width / 2

/-- One drawRectangle call: position, extent and fill colour. -/
structure Rectangle where
  x : ℚ
  y : ℚ
  w : ℚ
  h : ℚ
  color : Color
deriving DecidableEq, Repr

/-- One drawText call: content, anchor position, font, size and colour. -/
structure TextOp where
  content : String
  x : ℚ
  y : ℚ
  font : StandardFont
  size : ℚ
  color : Color
deriving DecidableEq, Repr

/-- A drawing operation issued on a page, in issue order. -/
inductive PageOp where
  | rect (r : Rectangle)
  | text (t : TextOp)
deriving DecidableEq, Repr

/-- Embedding of applyTemplateDesign (src/server/routes.ts lines 1229-1335).
It only ever calls drawRectangle: a white full-page background first, then a
per-template treatment selected by the template name, with a default header
bar of height 100 for unrecognized names. -/
def applyTemplateDesign (templateName : String) (color : Color)
    (width height : ℚ) : List Rectangle :=
  ⟨0, 0, width, height, rgb 1 1 1⟩ ::
  (if templateName = "Corporate Blue" then
    [⟨0, height - 120, width, 120, color⟩]
  else if templateName = "Modern Gradient" then
    (List.range 10).map fun i =>
      let opacity : ℚ := 1/10 + i * (5/100)
      ⟨0, height - 150 + i * 10, width, 20,
       rgb (color.r * opacity) (color.g * opacity) (color.b * opacity)⟩
  else if templateName = "Minimal White" then
    [⟨0, height - 5, width, 5, color⟩]
  else if templateName = "Bold Red" then
    [⟨0, 0, 20, height, color⟩,
     ⟨20, height - 80, width - 20, 80,
      rgb (color.r * (8/10)) (color.g * (8/10)) (color.b * (8/10))⟩]
  else if templateName = "Elegant Black" then
    [⟨40, height - 100, width - 80, 2, color⟩]
  else if templateName = "Tech Blue" then
    [⟨0, height - 60, width * (7/10), 60, color⟩,
     ⟨width * (75/100), height - 40, width * (25/100), 20,
      rgb (color.r * (7/10)) (color.g * (7/10)) (color.b * (7/10))⟩]
  else
    [⟨0, height - 100, width, 100, color⟩])

/-- Template record (src/shared/schema.ts lines 26-31). -/
structure Template where
  id : ℤ
  name : String
  imagePath : String
  category : String
deriving DecidableEq, Repr

/-- Customization record as stored and consumed by the rendering code.
Absent or empty fields are both modelled by the empty string, which is
faithful because the code only ever reads them through JS truthiness
(the or-else default and the conditional presenter/date blocks). -/
structure Customization where
  title : String
  subtitle : String
  presenter : String
  date : String
  colorScheme : String
  fontFamily : String
  titleSize : String
  titleAlignment : String
  templateId : ℤ
deriving DecidableEq, Repr

/-- Grey used for subtitle, presenter and date text: rgb(0.3, 0.3, 0.3). -/
def grey : Color := rgb (3/10) (3/10) (3/10)

/-- Font embedded for the cover, after the or-else default on fontFamily
(src/server/routes.ts lines 1096-1114). -/
def coverFont (c : Customization) : StandardFont :=
  resolveFont (if c.fontFamily = "" then "Helvetica" else c.fontFamily)

/-- Resolved colour of the cover, after the or-else default on colorScheme
(src/server/routes.ts lines 1120-1121). -/
def coverColor (c : Customization) : Color :=
  hexToRgb (if c.colorScheme = "" then "#0077B5" else c.colorScheme)

/-- The title drawText call (src/server/routes.ts lines 1130-1136). -/
def titleOp (c : Customization) (width height : ℚ) : TextOp :=
  ⟨(if c.title = "" then "Presentation Title" else c.title),
   getTitleX c.titleAlignment width, height - 200, coverFont c,
   getTitleSize c.titleSize, rgb 0 0 0⟩

/-- The subtitle drawText call (src/server/routes.ts lines 1139-1145). -/
def subtitleOp (c : Customization) (width height : ℚ) : TextOp :=
  ⟨(if c.subtitle = "" then "Subtitle" else c.subtitle),
   getTitleX c.titleAlignment width, height - 230, coverFont c, 18, grey⟩

/-- The presenter drawText call (src/server/routes.ts lines 1149-1155). -/
def presenterOp (c : Customization) : TextOp :=
  ⟨"Presented by: " ++ c.presenter, 50, 100, coverFont c, 14, grey⟩

/-- The date drawText call (src/server/routes.ts lines 1159-1165). -/
def dateOp (c : Customization) : TextOp :=
  ⟨c.date, 50, 70, coverFont c, 14, grey⟩

/-- Drawing operations issued on the generated cover page, in issue order
(src/server/routes.ts lines 1093-1166; the identical sequence appears in
generateCustomizedCoverPreview lines 994-1068).  The page is US Letter,
612 x 792.  Title and subtitle are drawn unconditionally with or-else
placeholders; presenter and date are drawn only when truthy (non-empty). -/
def coverPageOps (template : Template) (customizations : Customization) :
    List PageOp :=
  let width : ℚ := 612
  let height : ℚ := 792
  (applyTemplateDesign template.name (coverColor customizations)
      width height).map PageOp.rect
  ++ [PageOp.text (titleOp customizations width height),
      PageOp.text (subtitleOp customizations width height)]
  ++ (if customizations.presenter = "" then []
      else [PageOp.text (presenterOp customizations)])
  ++ (if customizations.date = "" then []
      else [PageOp.text (dateOp customizations)])

/-- The generated cover page: US Letter size with the drawn operations. -/
structure Page where
  width : ℚ
  height : ℚ
  ops : List PageOp
deriving DecidableEq, Repr

/-- Cover page added by newPdfDoc.addPage([612, 792]) and then drawn on. -/
def coverPage (template : Template) (customizations : Customization) : Page :=
  ⟨612, 792, coverPageOps template customizations⟩

/-- A page of the output document: either the generated cover or a page
copied verbatim from the original document (opaque content). -/
inductive OutPage (α : Type) where
  | cover (p : Page)
  | copied (p : α)
deriving DecidableEq, Repr

/-- Failure mode of the composer: PDFDocument.load rejects the input bytes.
The code rethrows that error (src/server/routes.ts lines 1182-1185); the
spec names it MalformedSourceDocument. -/
inductive ComposeError where
  | MalformedSourceDocument
deriving DecidableEq, Repr

/-- Embedding of generateModifiedPdf (src/server/routes.ts lines 1083-1186).
The input is the result of PDFDocument.load on the original bytes: none when
loading throws (the error is rethrown), some pages otherwise.  The output
document receives the generated cover page first; then, if the original has
more than one page, pages with indices 1 .. pageCount-1 are copied over in
order (Array.from of length pageCount-1 starting at index 1). -/
def generateModifiedPdf {α : Type} (parsed : Option (List α))
    (template : Template) (customizations : Customization) :
    Except ComposeError (List (OutPage α)) :=
  match parsed with
  | none => .error .MalformedSourceDocument
  | some origPages =>
      let copied := if origPages.length > 1 then origPages.drop 1 else []
      .ok (OutPage.cover (coverPage template customizations)
            :: copied.map OutPage.copied)

/-- Document record (src/shared/schema.ts lines 16-24): customizations is a
nullable jsonb column, isModified a boolean defaulting to false. -/
structure Doc where
  id : ℤ
  userId : Option ℤ
  originalName : String
  fileName : String
  isModified : Bool
  customizations : Option Customization
deriving DecidableEq, Repr

/-- Server-visible persistent state: the documents and templates tables. -/
structure ServerState where
  documents : List Doc
  templates : List Template
deriving DecidableEq, Repr

/-- Embedding of storage.getDocument (src/server/storage.ts lines 63-66):
select where id matches. -/
def getDocument (st : ServerState) (id : ℤ) : Option Doc :=
  st.documents.find? fun d => d.id = id

/-- Embedding of storage.getTemplate (src/server/storage.ts lines 98-101). -/
def getTemplate (st : ServerState) (id : ℤ) : Option Template :=
  st.templates.find? fun t => t.id = id

/-- Embedding of the document creation performed by the upload route
(src/server/routes.ts lines 738-742 calling storage.createDocument,
src/server/storage.ts lines 77-83): the insert carries only userId,
originalName and fileName, so customizations is null and isModified takes
its schema default false (src/shared/schema.ts lines 22-23). -/
def uploadDocument (st : ServerState) (id : ℤ) (userId : Option ℤ)
    (originalName fileName : String) : ServerState :=
  { st with documents :=
      st.documents ++ [⟨id, userId, originalName, fileName, false, none⟩] }

/-- Embedding of storage.updateDocumentCustomizations
(src/server/storage.ts lines 85-95): one update that sets the serialized
customizations and isModified = true together on the row with the given id. -/
def updateDocumentCustomizations (st : ServerState) (id : ℤ)
    (customizations : Customization) : ServerState :=
  { st with documents := st.documents.map fun d =>
      if d.id = id then
        { d with customizations := some customizations, isModified := true }
      else d }

/-- Embedding of storage.createTemplate (src/server/storage.ts
lines 107-113), used by seeding. -/
def createTemplate (st : ServerState) (t : Template) : ServerState :=
  { st with templates := st.templates ++ [t] }

/-- Response of the customize route, by HTTP class and message. -/
inductive CustomizeResponse where
  | badRequest (message : String)
  | notFound (message : String)
  | ok (previewUrl : String)
deriving DecidableEq, Repr

/-- Outcome of one customize request: the response, the resulting stored
state, and whether the renderer (generateCustomizedCoverPreview) ran. -/
structure CustomizeOutcome where
  response : CustomizeResponse
  state : ServerState
  rendererInvoked : Bool
deriving DecidableEq, Repr

/-- Embedding of POST /api/documents/:id/customize (src/server/routes.ts
lines 832-873).  TemplateId 0 stands for a falsy body field (JS rejects 0
and missing alike at line 845).  The template lookup happens before
storage.updateDocumentCustomizations and before the renderer call; on a
miss the handler returns 404 with the state untouched.  On success the
stored customizations are the body customizations with templateId spread
in, isModified becomes true, and the renderer runs. -/
def customizeRoute (st : ServerState) (documentId : ℤ) (templateId : ℤ)
    (customizations : Option Customization) : CustomizeOutcome :=
  match getDocument st documentId with
  | none => ⟨.notFound "Document not found", st, false⟩
  | some _document =>
      match customizations with
      | none =>
          ⟨.badRequest "Template ID and customizations are required",
           st, false⟩
      | some cust =>
          if templateId = 0 then
            ⟨.badRequest "Template ID and customizations are required",
             st, false⟩
          else
            match getTemplate st templateId with
            | none => ⟨.notFound "Template not found", st, false⟩
            | some _template =>
                let updated := { cust with templateId := templateId }
                ⟨.ok ("/api/documents/" ++ toString documentId
                       ++ "/cover-preview"),
                 updateDocumentCustomizations st documentId updated, true⟩

/-- Response of the download route. -/
inductive DownloadResponse (α : Type) where
  | notFound (message : String)
  | originalFile (fileName originalName : String)
  | modifiedFile (output : List (OutPage α)) (downloadName : String)
  | serverError (message : String)
deriving DecidableEq, Repr

/-- Embedding of GET /api/documents/:id/download (src/server/routes.ts
lines 897-944).  The parsed argument is the PDFDocument.load result for the
stored original bytes, consumed only when composition runs.  The returned
Bool records whether generateModifiedPdf was invoked.  When the stored
customizations are null the handler streams the original file directly
(lines 909-913). -/
def downloadRoute {α : Type} (st : ServerState) (documentId : ℤ)
    (parsed : Option (List α)) : DownloadResponse α × Bool :=
  match getDocument st documentId with
  | none => (.notFound "Document not found", false)
  | some document =>
      match document.customizations with
      | none => (.originalFile document.fileName document.originalName, false)
      | some cust =>
          match getTemplate st cust.templateId with
          | none => (.notFound "Template not found", false)
          | some template =>
              match generateModifiedPdf parsed template cust with
              | .error _ =>
                  (.serverError "Failed to download modified PDF", true)
              | .ok out => (.modifiedFile out document.originalName, true)

/-- States reachable through the storage operations the routes perform:
the empty initial state, document upload, customization update (the only
write the customize route performs on documents), and template seeding. -/
inductive Reachable : ServerState → Prop where
  | init : Reachable ⟨[], []⟩
  | upload {st} (id : ℤ) (userId : Option ℤ) (originalName fileName : String) :
      Reachable st → Reachable (uploadDocument st id userId originalName fileName)
  | update {st} (id : ℤ) (customizations : Customization) :
      Reachable st → Reachable (updateDocumentCustomizations st id customizations)
  | seed {st} (t : Template) : Reachable st → Reachable (createTemplate st t)

/-- Text operations of a page, in draw order (rectangles dropped). -/
def textOps (ops : List PageOp) : List TextOp :=
  ops.filterMap fun op => match op with
    | .text t => some t
    | .rect _ => none

/-- True on a text operation anchored at vertical position y. -/
def isTextAtY (y : ℚ) : PageOp → Bool
  | .text t => decide (t.y = y)
  | .rect _ => false

/-- Whether some drawn text is anchored at vertical position y. -/
def pageHasTextAtY (ops : List PageOp) (y : ℚ) : Bool :=
  ops.any (isTextAtY y)

/-- True on a text operation whose content begins with the presenter
prelude string. -/
def beginsPresentedBy : PageOp → Bool
  | .text t => "Presented by:".toList.isPrefixOf t.content.toList
  | .rect _ => false

/-- Whether some drawn text begins with the presenter prelude string. -/
def pageHasPresentedBy (ops : List PageOp) : Bool :=
  ops.any beginsPresentedBy

/-- Seeded Corporate Blue template used as a concrete test fixture. -/
def corporateBlue : Template :=
  ⟨1, "Corporate Blue", "/templates/corporate-blue.png", "business"⟩

/-- Concrete customization used as a test fixture. -/
def sampleCustomization : Customization :=
  ⟨"Q3 Results", "Finance Team", "Jane Doe", "2024-01-01",
   "#0077B5", "Roboto", "Large", "center", 1⟩

/-- Customization whose presenter field is empty but whose title itself
begins with the presenter prelude string. -/
def presenterClashCustomization : Customization :=
  ⟨"Presented by: the committee", "Agenda", "", "2024-05-05",
   "#0077B5", "Roboto", "Medium", "left", 1⟩

/-- State holding one freshly uploaded document and no templates. -/
def docOnlyState : ServerState :=
  uploadDocument ⟨[], []⟩ 1 none "report.pdf" "file-1.pdf"

/-- State after applying a customization to the uploaded document. -/
def updatedState : ServerState :=
  updateDocumentCustomizations docOnlyState 1 sampleCustomization

/-! Helper lemmas about the drawn operations of the cover page. -/

/-- Rectangle operations contribute no text operations. -/
theorem textOps_map_rect (l : List Rectangle) :
    textOps (l.map PageOp.rect) = [] := by
  simp [textOps, List.filterMap_map, Function.comp]

/-- The text operations of concatenated drawing ops concatenate. -/
theorem textOps_append (l1 l2 : List PageOp) :
    textOps (l1 ++ l2) = textOps l1 ++ textOps l2 := by
  simp [textOps, List.filterMap_append]

/-- Complete description of the text drawn on the generated cover page:
title and subtitle always, then the presenter line when the presenter field
is non-empty, then the date line when the date field is non-empty. -/
theorem textOps_cover (template : Template) (cust : Customization) :
    textOps (coverPageOps template cust) =
      titleOp cust 612 792 :: subtitleOp cust 612 792 ::
      ((if cust.presenter = "" then [] else [presenterOp cust]) ++
       (if cust.date = "" then [] else [dateOp cust])) := by
  by_cases hp : cust.presenter = "" <;> by_cases hd : cust.date = "" <;>
    simp [coverPageOps, textOps_append, textOps_map_rect, textOps,
      List.filterMap_cons, hp, hd]

/-- Rectangle operations are never text at any vertical position. -/
theorem any_rect_isTextAtY (l : List Rectangle) (y : ℚ) :
    (l.map PageOp.rect).any (isTextAtY y) = false := by
  simp [isTextAtY, List.any_map, Function.comp]

/-- Rectangle operations never begin with the presenter prelude. -/
theorem any_rect_beginsPresentedBy (l : List Rectangle) :
    (l.map PageOp.rect).any beginsPresentedBy = false := by
  simp [beginsPresentedBy, List.any_map, Function.comp]

/-- The presenter line's content always begins with the prelude string. -/
theorem presentedBy_prefix_append (s : String) :
    "Presented by:".toList.isPrefixOf ("Presented by: " ++ s).toList = true := by
  have h1 : ("Presented by: " ++ s).toList =
      "Presented by: ".toList ++ s.toList := by
    simp [String.toList, String.data_append]
  have h2 : ("Presented by: ".toList : List Char) =
      "Presented by:".toList ++ [Char.ofNat 32] := by decide
  rw [List.isPrefixOf_iff_prefix, h1, h2, List.append_assoc]
  exact List.prefix_append _ _

/-- Inputs rejected by the hex colour regex all resolve to black. -/
theorem hexToRgb_nonMatching (s : String) (hs : hexMatches s = false) :
    hexToRgb s = rgb 0 0 0 := by
  unfold hexToRgb
  unfold hexMatches at hs
  rcases h : stripHash s with
    _ | ⟨c1, _ | ⟨c2, _ | ⟨c3, _ | ⟨c4, _ | ⟨c5, _ | ⟨c6, _ | ⟨c7, rest⟩⟩⟩⟩⟩⟩⟩ <;>
    simp_all [rgb]

/-- C1 (corrected): for an original that parses with pages, the composed
output is the generated cover followed by the original's pages 2..N in
order, so its page count is max(1, N) — exactly N whenever N ≥ 1 and 1
(the cover alone, not an error) when N = 0; for unparseable input the
composer fails with MalformedSourceDocument.  Never 0 or negative pages. -/
theorem generateModifiedPdf_spec {α : Type} (parsed : Option (List α))
    (template : Template) (cust : Customization) :
    (parsed = none →
      generateModifiedPdf parsed template cust =
        .error .MalformedSourceDocument) ∧
    (∀ pages, parsed = some pages →
      generateModifiedPdf parsed template cust =
        .ok (OutPage.cover (coverPage template cust)
              :: (pages.drop 1).map OutPage.copied) ∧
      (OutPage.cover (α := α) (coverPage template cust)
        :: (pages.drop 1).map OutPage.copied).length = max 1 pages.length) := by
  constructor
  · rintro rfl; rfl
  · rintro pages rfl
    constructor
    · by_cases h : pages.length > 1
      · simp [generateModifiedPdf, h]
      · have hd : pages.drop 1 = [] := by
          apply List.eq_nil_of_length_eq_zero
          simp [List.length_drop]; omega
        simp [generateModifiedPdf, h, hd]
    · simp [List.length_drop]; omega

/-- Witness for C1 at a concrete three-page original: the output is the
cover followed by original pages 2 and 3. -/
theorem generateModifiedPdf_spec_witness :
    generateModifiedPdf (some ([10, 20, 30] : List ℕ)) corporateBlue
      sampleCustomization =
      .ok (OutPage.cover (coverPage corporateBlue sampleCustomization)
            :: ([20, 30].map OutPage.copied)) :=
  ((generateModifiedPdf_spec (some [10, 20, 30]) corporateBlue
      sampleCustomization).2 [10, 20, 30] rfl).1

/-- Counterexample to C1 as stated: a parseable original with zero pages
does not raise MalformedSourceDocument; the composer succeeds with a
one-page output consisting of the generated cover alone. -/
theorem generateModifiedPdf_zeroPages :
    generateModifiedPdf (some ([] : List ℕ)) corporateBlue
      sampleCustomization =
      .ok [OutPage.cover (coverPage corporateBlue sampleCustomization)] ∧
    generateModifiedPdf (some ([] : List ℕ)) corporateBlue
      sampleCustomization ≠ .error .MalformedSourceDocument :=
  ⟨rfl, by simp [generateModifiedPdf]⟩

/-- C2: the composer is deterministic — two independent compose calls on
the same (parsed original, template, customization) triple return equal
results, hence equal page counts and equal drawn content per page. -/
theorem generateModifiedPdf_deterministic {α : Type} (parsed : Option (List α))
    (template : Template) (cust : Customization)
    (out1 out2 : Except ComposeError (List (OutPage α)))
    (h1 : out1 = generateModifiedPdf parsed template cust)
    (h2 : out2 = generateModifiedPdf parsed template cust) :
    out1 = out2 ∧
    ∀ l1 l2, out1 = .ok l1 → out2 = .ok l2 →
      l1.length = l2.length ∧ l1 = l2 := by
  subst h1 h2
  refine ⟨rfl, fun l1 l2 e1 e2 => ?_⟩
  rw [e1] at e2
  cases e2
  exact ⟨rfl, rfl⟩

/-- Witness for C2 at a concrete input. -/
theorem generateModifiedPdf_deterministic_witness :
    generateModifiedPdf (some ([1, 2] : List ℕ)) corporateBlue
      sampleCustomization =
      generateModifiedPdf (some ([1, 2] : List ℕ)) corporateBlue
        sampleCustomization :=
  (generateModifiedPdf_deterministic (some [1, 2]) corporateBlue
    sampleCustomization _ _ rfl rfl).1

/-- C3: the style resolvers are total functions (each is a total Lean
function, and hexToRgb returns a colour for every string) realizing the
documented tables: getTitleSize maps Small/Medium/Large/Extra Large to
24/32/40/48 and everything else to 32; getTitleX maps left to 50, right to
width-50, and center or anything else to width/2; the font switch maps
Playfair Display to the serif font and every other label to the sans
font. -/
theorem styleResolvers_spec (s a t u : String) (w : ℚ)
    (hs1 : s ≠ "Small") (hs2 : s ≠ "Medium") (hs3 : s ≠ "Large")
    (hs4 : s ≠ "Extra Large")
    (ha1 : a ≠ "left") (ha2 : a ≠ "right")
    (ht : t ≠ "Playfair Display") :
    getTitleSize "Small" = 24 ∧ getTitleSize "Medium" = 32 ∧
    getTitleSize "Large" = 40 ∧ getTitleSize "Extra Large" = 48 ∧
    getTitleSize s = 32 ∧
    getTitleX "left" w = 50 ∧ getTitleX "right" w = w - 50 ∧
    getTitleX "center" w = w / 2 ∧ getTitleX a w = w / 2 ∧
    resolveFont "Playfair Display" = StandardFont.TimesRoman ∧
    resolveFont t = StandardFont.Helvetica ∧
    ∃ c : Color, hexToRgb u = c := by
  refine ⟨by simp [getTitleSize], by simp [getTitleSize],
    by simp [getTitleSize], by simp [getTitleSize],
    by simp [getTitleSize, hs1, hs2, hs3, hs4],
    by simp [getTitleX], by simp [getTitleX], by simp [getTitleX],
    by simp [getTitleX, ha1, ha2], by simp [resolveFont], ?_,
    ⟨hexToRgb u, rfl⟩⟩
  simp only [resolveFont]
  split_ifs <;> simp_all

/-- Witness for C3 at unrecognized enum values. -/
theorem styleResolvers_spec_witness :
    getTitleSize "Gigantic" = 32 ∧ getTitleX "justify" 612 = 306 ∧
    resolveFont "Comic Sans" = StandardFont.Helvetica := by
  obtain ⟨-, -, -, -, h5, -, -, -, h9, -, h11, -⟩ :=
    styleResolvers_spec "Gigantic" "justify" "Comic Sans" "" 612
      (by decide) (by decide) (by decide) (by decide) (by decide) (by decide)
      (by decide)
  refine ⟨h5, ?_, h11⟩
  rw [h9]
  norm_num

/-- C4: hexToRgb resolves the hash 0077B5 string to
(0/255, 0x77/255, 0xB5/255), within 1e-3 of (0.0, 0.4667, 0.7098); every
string rejected by the regex — in particular the not-a-color string —
resolves to black (0,0,0) without failing. -/
theorem hexToRgb_spec :
    hexToRgb "#0077B5" = rgb 0 (119/255) (181/255) ∧
    |(hexToRgb "#0077B5").r - 0| ≤ 1/1000 ∧
    |(hexToRgb "#0077B5").g - 4667/10000| ≤ 1/1000 ∧
    |(hexToRgb "#0077B5").b - 7098/10000| ≤ 1/1000 ∧
    hexToRgb "not-a-color" = rgb 0 0 0 ∧
    (∀ s : String, hexMatches s = false → hexToRgb s = rgb 0 0 0) := by
  have h : hexToRgb "#0077B5" = rgb 0 (119/255) (181/255) := by
    simp +decide [hexToRgb, stripHash, hexPairVal, hexCharVal, isHexChar, rgb]
  refine ⟨h, ?_, ?_, ?_, by simp +decide [hexToRgb, stripHash, rgb],
    fun s hs => hexToRgb_nonMatching s hs⟩ <;>
    rw [h] <;> rw [abs_le] <;> constructor <;> norm_num [rgb]

/-- Witness for C4's general fallback conjunct at a concrete input. -/
theorem hexToRgb_spec_witness :
    hexMatches "ZZZZZZ" = false ∧ hexToRgb "ZZZZZZ" = rgb 0 0 0 :=
  ⟨by decide, hexToRgb_spec.2.2.2.2.2 "ZZZZZZ" (by decide)⟩

/-- C5: for every template name outside the six-entry catalog, the
template design function succeeds and produces exactly the default
layout — the white full-page background followed by a full-width header
bar of height 100 at the top of the page in the resolved colour. -/
theorem applyTemplateDesign_default (templateName : String) (color : Color)
    (width height : ℚ)
    (h : templateName ∉ (["Corporate Blue", "Modern Gradient",
        "Minimal White", "Bold Red", "Elegant Black",
        "Tech Blue"] : List String)) :
    applyTemplateDesign templateName color width height =
      [⟨0, 0, width, height, rgb 1 1 1⟩,
       ⟨0, height - 100, width, 100, color⟩] := by
  simp only [List.mem_cons, List.not_mem_nil, or_false, not_or] at h
  obtain ⟨h1, h2, h3, h4, h5, h6⟩ := h
  simp [applyTemplateDesign, h1, h2, h3, h4, h5, h6]

/-- Witness for C5 at a nonexistent template name on a US Letter page. -/
theorem applyTemplateDesign_default_witness :
    applyTemplateDesign "NonexistentTemplateName" (hexToRgb "#0077B5")
      612 792 =
      [⟨0, 0, 612, 792, rgb 1 1 1⟩,
       ⟨0, 692, 612, 100, hexToRgb "#0077B5"⟩] := by
  have h := applyTemplateDesign_default "NonexistentTemplateName"
    (hexToRgb "#0077B5") 612 792 (by decide)
  rw [h]
  norm_num

/-- C6 (corrected): identified by position, the presenter line (text at
(50,100)) is drawn iff the presenter field is non-empty and the date line
(text at (50,70)) is drawn iff the date field is non-empty; a non-empty
presenter always yields some text beginning with the prelude string, and
with an empty presenter no drawn text begins with it provided no other
text field itself begins with the prelude string. -/
theorem presenter_date_positional (template : Template) (cust : Customization) :
    (pageHasTextAtY (coverPageOps template cust) 100 = true ↔
      cust.presenter ≠ "") ∧
    (pageHasTextAtY (coverPageOps template cust) 70 = true ↔
      cust.date ≠ "") ∧
    (cust.presenter ≠ "" →
      pageHasPresentedBy (coverPageOps template cust) = true) ∧
    (cust.presenter = "" →
      "Presented by:".toList.isPrefixOf cust.title.toList = false →
      "Presented by:".toList.isPrefixOf cust.subtitle.toList = false →
      "Presented by:".toList.isPrefixOf cust.date.toList = false →
      pageHasPresentedBy (coverPageOps template cust) = false) := by
  refine ⟨?_, ?_, ?_, ?_⟩
  · by_cases hp : cust.presenter = "" <;> by_cases hd : cust.date = "" <;>
      norm_num [pageHasTextAtY, coverPageOps, List.any_append,
        any_rect_isTextAtY, isTextAtY, titleOp, subtitleOp, presenterOp,
        dateOp, hp, hd]
  · by_cases hp : cust.presenter = "" <;> by_cases hd : cust.date = "" <;>
      norm_num [pageHasTextAtY, coverPageOps, List.any_append,
        any_rect_isTextAtY, isTextAtY, titleOp, subtitleOp, presenterOp,
        dateOp, hp, hd]
  · intro hp
    by_cases hd : cust.date = "" <;>
      simp [pageHasPresentedBy, coverPageOps, List.any_append,
        any_rect_beginsPresentedBy, beginsPresentedBy, titleOp, subtitleOp,
        presenterOp, dateOp, hp, hd, presentedBy_prefix_append]
  · intro hp h1 h2 h3
    by_cases hd : cust.date = "" <;>
      by_cases ht : cust.title = "" <;> by_cases hs : cust.subtitle = "" <;>
      simp_all +decide [pageHasPresentedBy, coverPageOps, List.any_append,
        any_rect_beginsPresentedBy, beginsPresentedBy, titleOp, subtitleOp,
        presenterOp, dateOp]

/-- Witness for C6 at a customization with a non-empty presenter. -/
theorem presenter_date_positional_witness :
    pageHasTextAtY (coverPageOps corporateBlue sampleCustomization) 100 =
      true ∧
    pageHasPresentedBy (coverPageOps corporateBlue sampleCustomization) =
      true := by
  obtain ⟨hA, -, hC, -⟩ :=
    presenter_date_positional corporateBlue sampleCustomization
  exact ⟨hA.mpr (by decide), hC (by decide)⟩

/-- Counterexample to C6 as stated: a customization whose presenter field
is empty but whose title itself begins with the prelude string makes the
page contain a drawn text element beginning with the prelude string, so
the content-based iff fails. -/
theorem presenter_content_iff_counterexample :
    presenterClashCustomization.presenter = "" ∧
    pageHasPresentedBy
      (coverPageOps corporateBlue presenterClashCustomization) = true := by
  refine ⟨rfl, ?_⟩
  simp +decide [pageHasPresentedBy, coverPageOps, List.any_append,
    any_rect_beginsPresentedBy, beginsPresentedBy, titleOp,
    presenterClashCustomization]

/-- C7: when the customize route is invoked on an existing document with a
customization body and a template id absent from the catalog, it answers
404 Template not found, leaves the stored state (hence the document's
customizations and isModified flag) unchanged, and never invokes the
renderer. -/
theorem customize_templateNotFound (st : ServerState)
    (documentId templateId : ℤ) (cust : Customization) (doc : Doc)
    (hdoc : getDocument st documentId = some doc)
    (htid : templateId ≠ 0)
    (htmpl : getTemplate st templateId = none) :
    customizeRoute st documentId templateId (some cust) =
      ⟨.notFound "Template not found", st, false⟩ := by
  simp [customizeRoute, hdoc, htid, htmpl]

/-- Witness for C7 on a state with one document and no templates. -/
theorem customize_templateNotFound_witness :
    customizeRoute docOnlyState 1 5 (some sampleCustomization) =
      ⟨.notFound "Template not found", docOnlyState, false⟩ :=
  customize_templateNotFound docOnlyState 1 5 sampleCustomization
    ⟨1, none, "report.pdf", "file-1.pdf", false, none⟩
    (by decide) (by decide) (by decide)

/-- C8: in every state reachable through the storage operations, any
document whose customizations field is non-null has isModified = true —
creation initializes customizations to null with isModified false, and the
customization update sets both fields together. -/
theorem reachable_customizations_isModified (st : ServerState)
    (h : Reachable st) :
    ∀ d ∈ st.documents, d.customizations ≠ none → d.isModified = true := by
  induction h with
  | init => intro d hd; simp at hd
  | upload id userId originalName fileName _ ih =>
      intro d hd hc
      rcases (by simpa [uploadDocument] using hd) with hd1 | rfl
      · exact ih d hd1 hc
      · simp at hc
  | update id cust _ ih =>
      intro d hd hc
      simp only [updateDocumentCustomizations, List.mem_map] at hd
      obtain ⟨d0, hd0, rfl⟩ := hd
      by_cases h0 : d0.id = id
      · rw [if_pos h0]
      · rw [if_neg h0] at hc ⊢
        exact ih d0 hd0 hc
  | seed t _ ih =>
      intro d hd hc
      exact ih d (by simpa [createTemplate] using hd) hc

/-- Witness for C8: the customized document in a concrete reachable state
has isModified = true. -/
theorem reachable_customizations_isModified_witness :
    (⟨1, none, "report.pdf", "file-1.pdf", true,
      some sampleCustomization⟩ : Doc).isModified = true :=
  reachable_customizations_isModified updatedState
    (Reachable.update 1 sampleCustomization
      (Reachable.upload 1 none "report.pdf" "file-1.pdf" Reachable.init))
    _ (by decide) (by decide)

/-- C9: downloading a document whose stored customizations field is null
streams the stored original file unchanged and never invokes the
composer. -/
theorem download_nullCustomizations {α : Type} (st : ServerState)
    (documentId : ℤ) (doc : Doc) (parsed : Option (List α))
    (hdoc : getDocument st documentId = some doc)
    (hc : doc.customizations = none) :
    downloadRoute st documentId parsed =
      (.originalFile doc.fileName doc.originalName, false) := by
  simp [downloadRoute, hdoc, hc]

/-- Witness for C9 on a freshly uploaded document. -/
theorem download_nullCustomizations_witness :
    downloadRoute docOnlyState 1 (some ([1, 2] : List ℕ)) =
      (.originalFile "file-1.pdf" "report.pdf", false) :=
  download_nullCustomizations docOnlyState 1
    ⟨1, none, "report.pdf", "file-1.pdf", false, none⟩ (some [1, 2])
    (by decide) (by decide)

/-- C10: the cover always has the title text first and the subtitle text
second among its drawn texts; an empty or missing title draws the literal
placeholder Presentation Title and an empty or missing subtitle draws the
literal placeholder Subtitle — unlike presenter and date, they are never
omitted. -/
theorem coverPage_placeholder_texts (template : Template)
    (cust : Customization) :
    ∃ rest, textOps (coverPageOps template cust) =
      titleOp cust 612 792 :: subtitleOp cust 612 792 :: rest ∧
      (titleOp cust 612 792).content =
        (if cust.title = "" then "Presentation Title" else cust.title) ∧
      (subtitleOp cust 612 792).content =
        (if cust.subtitle = "" then "Subtitle" else cust.subtitle) :=
  ⟨_, textOps_cover template cust, rfl, rfl⟩

end PdfTemplateEditor
